import Mathlib

/-
Verification of the knowledge-graph core of the `graphs` repository.

The repository defines (in `src/graphs/common/main.py`, with identical
copies in `src/graphs/app/main.py` and `panel_example.py`):

  class Node(BaseModel):
      id: int
      name: str
      node_type: t.Literal["PERSON", "PLACE", "ORGANIZATION", "EVENT", "OTHER"]
      def __hash__(self): return hash((self.id, self.name, self.node_type))

  class Edge(BaseModel):
      source: int
      target: int
      relationship_decription: str
      def __hash__(self): return hash((self.source, self.target, self.relationship_decription))

  class KnowledgeGraph(BaseModel):
      nodes: List[Node]
      edges: List[Edge]
      def update(self, other):
          return KnowledgeGraph(
              nodes=list(set(self.nodes + other.nodes)),
              edges=list(set(self.edges + other.edges)))

Pydantic equality on these models is field-by-field equality, and the
overridden hashes are consistent with it (hash of the full field tuple),
so Python's `set` deduplicates by exact full-tuple equality.  The order
of `list(set(...))` is unspecified in Python; the embedding fixes one
representative order via `List.dedup` (which keeps one occurrence of
each element), and every theorem below about merge results is stated at
the level of element sets or multisets, which the choice of order does
not affect.
-/

namespace Graphs

/-- Entity category of a node: the `node_type` literal of the Python model. -/
inductive NodeType where
  | PERSON
  | PLACE
  | ORGANIZATION
  | EVENT
  | OTHER
deriving DecidableEq, Repr

/-- Graph node, embedding the pydantic `Node` model: integer id, name, and
entity type.  Equality is field-by-field, matching pydantic model equality;
the Python `__hash__` over the full tuple is consistent with that equality. -/
structure Node where
  id : Int
  name : String
  node_type : NodeType
deriving DecidableEq, Repr

/-- Graph edge, embedding the pydantic `Edge` model: source id, target id,
and a relationship description (the field is misspelt in the source and the
embedding keeps that name). -/
structure Edge where
  source : Int
  target : Int
  relationship_decription : String
deriving DecidableEq, Repr

/-- Knowledge graph, embedding the pydantic `KnowledgeGraph` model: a list
of nodes and a list of edges. -/
structure KnowledgeGraph where
  nodes : List Node := []
  edges : List Edge := []
deriving DecidableEq, Repr

/-- The merge operation `KnowledgeGraph.update`.  The Python body is
`KnowledgeGraph(nodes=list(set(self.nodes + other.nodes)), edges=list(set(self.edges + other.edges)))`:
concatenate, then deduplicate through a hash set.  `List.dedup` is the
order-fixed embedding of `list(set(...))`. -/
def KnowledgeGraph.update (self other : KnowledgeGraph) : KnowledgeGraph :=
  { nodes := (self.nodes ++ other.nodes).dedup
    edges := (self.edges ++ other.edges).dedup }

/-- The empty graph `KnowledgeGraph()`: both fields default to the empty
list (`default_factory=list`). -/
def emptyGraph : KnowledgeGraph := {}

/-- Node `N(1,"Sam",PERSON)` from the spec examples. -/
def N_sam : Node := { id := 1, name := "Sam", node_type := NodeType.PERSON }

/-- Node `N(2,"NYC",PLACE)` from the spec example. -/
def N_nyc : Node := { id := 2, name := "NYC", node_type := NodeType.PLACE }

/-- Node `N(1,"Samantha",PERSON)` from the node-id collision example. -/
def N_samantha : Node := { id := 1, name := "Samantha", node_type := NodeType.PERSON }

/-- Edge `E(1,2,"lives in")` from the spec example. -/
def E_livesIn : Edge := { source := 1, target := 2, relationship_decription := "lives in" }

/-- Example graph `a = {nodes: [N(1,"Sam",PERSON)], edges: []}`. -/
def exampleA : KnowledgeGraph := { nodes := [N_sam], edges := [] }

/-- Example graph `b = {nodes: [N(1,"Sam",PERSON), N(2,"NYC",PLACE)], edges: [E(1,2,"lives in")]}`. -/
def exampleB : KnowledgeGraph := { nodes := [N_sam, N_nyc], edges := [E_livesIn] }

/-- The graph updater `update_graph` of `src/graphs/app/main.py`.  After the
outbound completion call (in which the current graph `kg` appears only inside
the serialized prompt messages), the body is

    try:
        return KnowledgeGraph.model_validate_json(response.choices[0].message.content)
    except Exception as e:
        raise ValueError(f"Error updating graph: \x7be\x7d")

The external pydantic JSON validator is a parameter `model_validate_json`
(returning `Except String KnowledgeGraph`), and the model response content
is the `responseContent` argument; the raised `ValueError` is embedded as
the `Except.error` branch carrying the formatted message.  There is exactly
one validation attempt: no retry, and no partial acceptance. -/
def update_graph (model_validate_json : String → Except String KnowledgeGraph)
    (responseContent : String) (kg : KnowledgeGraph) : Except String KnowledgeGraph :=
  match model_validate_json responseContent with
  | Except.ok g => Except.ok g
  | Except.error e => Except.error ("Error updating graph: " ++ e)

/-- The graph-update step of `KnowledgeGraphApp.chat_callback`: the single
statement `self.graph = update_graph(result, self.graph)`.  When
`update_graph` raises, the assignment never executes and the attribute keeps
its previous value (the exception propagates to the chat framework); when it
returns, the attribute is rebound to the returned graph.  The function maps
the held graph value before the statement to the held graph value after it. -/
def chat_callback_graph (model_validate_json : String → Except String KnowledgeGraph)
    (responseContent : String) (graph : KnowledgeGraph) : KnowledgeGraph :=
  match update_graph model_validate_json responseContent graph with
  | Except.ok g => g
  | Except.error _ => graph

/-- Object store for the frame-condition claims: Python `KnowledgeGraph`
objects live on a heap of cells addressed by allocation order. -/
structure Heap where
  cells : List KnowledgeGraph

/-- Dereference an address in the heap (out-of-range reads the empty graph;
the theorems only use in-range addresses). -/
def Heap.read (h : Heap) (r : Nat) : KnowledgeGraph :=
  h.cells.getD r emptyGraph

/-- Allocate a fresh cell holding `g`, returning the new heap and the fresh
address. -/
def Heap.alloc (h : Heap) (g : KnowledgeGraph) : Heap × Nat :=
  ({ cells := h.cells ++ [g] }, h.cells.length)

/-- Heap-level embedding of a call `a.update(b)`: read both operand objects,
compute the merged graph, and allocate a new object for the result — the
Python body builds new lists (`+`, `set`, `list`) and a new `KnowledgeGraph`,
and never writes to either operand. -/
def updateAlloc (h : Heap) (ra rb : Nat) : Heap × Nat :=
  h.alloc ((h.read ra).update (h.read rb))

end Graphs

namespace Graphs

/-- C1: merge is exact-tuple union.  For all graphs `a` and `b`, the node
set of `a.update b` is the union of the node sets of `a` and `b`, the edge
set is the analogous union, and on the concrete spec example the node set is
`{N(1,"Sam",PERSON), N(2,"NYC",PLACE)}` and the edge set `{E(1,2,"lives in")}`. -/
theorem update_is_union (a b : KnowledgeGraph) :
    (a.update b).nodes.toFinset = a.nodes.toFinset ∪ b.nodes.toFinset ∧
    (a.update b).edges.toFinset = a.edges.toFinset ∪ b.edges.toFinset ∧
    (exampleA.update exampleB).nodes.toFinset = {N_sam, N_nyc} ∧
    (exampleA.update exampleB).edges.toFinset = {E_livesIn} := by
  refine ⟨?_, ?_, ?_, ?_⟩
  · ext n
    simp [KnowledgeGraph.update, List.mem_dedup, List.mem_append]
  · ext e
    simp [KnowledgeGraph.update, List.mem_dedup, List.mem_append]
  · decide
  · decide

/-- C2: merge never duplicates by exact tuple.  For all graphs `a` and `b`,
every node tuple occurs at most once in the node list of `a.update b`, and
every edge tuple at most once in its edge list. -/
theorem update_no_duplicates (a b : KnowledgeGraph) :
    (∀ n : Node, (a.update b).nodes.count n ≤ 1) ∧
    (∀ e : Edge, (a.update b).edges.count e ≤ 1) :=
  ⟨List.nodup_iff_count_le_one.mp (List.nodup_dedup _),
   List.nodup_iff_count_le_one.mp (List.nodup_dedup _)⟩

/-- C7: merge is idempotent as sets: for every graph `g`, the node and edge
sets of `g.update g` equal those of `g`. -/
theorem update_idempotent (g : KnowledgeGraph) :
    (g.update g).nodes.toFinset = g.nodes.toFinset ∧
    (g.update g).edges.toFinset = g.edges.toFinset := by
  constructor
  · ext n
    simp [KnowledgeGraph.update, List.mem_dedup, List.mem_append]
  · ext e
    simp [KnowledgeGraph.update, List.mem_dedup, List.mem_append]

/-- C8: merge is commutative up to ordering: for all graphs `a` and `b`, the
node and edge sets of `a.update b` equal those of `b.update a`. -/
theorem update_commutative (a b : KnowledgeGraph) :
    (a.update b).nodes.toFinset = (b.update a).nodes.toFinset ∧
    (a.update b).edges.toFinset = (b.update a).edges.toFinset := by
  constructor
  · ext n
    simp [KnowledgeGraph.update, List.mem_dedup, List.mem_append, or_comm]
  · ext e
    simp [KnowledgeGraph.update, List.mem_dedup, List.mem_append, or_comm]

/-- C3: the updater fails with the single extraction error exactly when
validation fails.  For every validator outcome on the response content:
if validation fails, `update_graph` returns the single domain error (the
raised `ValueError` with the `Error updating graph:` message) — one
validation attempt, no retry, no partial acceptance — and if validation
succeeds, `update_graph` returns exactly the parsed graph. -/
theorem update_graph_single_failure (v : String → Except String KnowledgeGraph)
    (s : String) (kg : KnowledgeGraph) :
    (∀ e, v s = Except.error e →
        update_graph v s kg = Except.error ("Error updating graph: " ++ e)) ∧
    (∀ g, v s = Except.ok g → update_graph v s kg = Except.ok g) := by
  constructor <;> intro x hx <;> simp [update_graph, hx]

/-- Witness for C3: concrete failing and succeeding validators. -/
theorem update_graph_single_failure_witness :
    update_graph (fun _ => Except.error "invalid JSON") "resp" emptyGraph
      = Except.error ("Error updating graph: " ++ "invalid JSON") ∧
    update_graph (fun _ => Except.ok exampleB) "resp" emptyGraph
      = Except.ok exampleB :=
  ⟨(update_graph_single_failure (fun _ => Except.error "invalid JSON") "resp"
      emptyGraph).1 "invalid JSON" rfl,
   (update_graph_single_failure (fun _ => Except.ok exampleB) "resp"
      emptyGraph).2 exampleB rfl⟩

/-- C4: a failed update leaves the stored graph untouched.  Whenever the
response content does not validate, the `chat_callback` statement
`self.graph = update_graph(result, self.graph)` raises before assigning, so
the held current-graph value after the turn equals the value held before. -/
theorem chat_callback_keeps_graph_on_failure
    (v : String → Except String KnowledgeGraph) (s : String)
    (g : KnowledgeGraph) (e : String) (h : v s = Except.error e) :
    chat_callback_graph v s g = g := by
  simp [chat_callback_graph, update_graph, h]

/-- Witness for C4: a concrete failing turn keeps the example graph. -/
theorem chat_callback_keeps_graph_on_failure_witness :
    chat_callback_graph (fun _ => Except.error "not json") "resp" exampleB
      = exampleB :=
  chat_callback_keeps_graph_on_failure (fun _ => Except.error "not json")
    "resp" exampleB "not json" rfl

/-- C5: a successful update is a full replacement.  When validation of the
response content succeeds with graph `g`, `update_graph` returns exactly
`g`: the `current` argument is not merged into the result, so any node of
`current` absent from the model response is absent from the result. -/
theorem update_graph_full_replacement
    (v : String → Except String KnowledgeGraph) (s : String)
    (kg g : KnowledgeGraph) (h : v s = Except.ok g) :
    update_graph v s kg = Except.ok g ∧
    ∀ n : Node, n ∈ kg.nodes → n ∉ g.nodes →
      ∀ gr, update_graph v s kg = Except.ok gr → n ∉ gr.nodes := by
  refine ⟨by simp [update_graph, h], ?_⟩
  intro n _ hn gr hgr
  simp [update_graph, h] at hgr
  exact hgr ▸ hn

/-- Witness for C5: the model answers with `exampleA` while the current
graph is `exampleB`; the result is exactly `exampleA`, and the node
`N(2,"NYC",PLACE)` of the current graph is dropped. -/
theorem update_graph_full_replacement_witness :
    update_graph (fun _ => Except.ok exampleA) "resp" exampleB
      = Except.ok exampleA ∧
    N_nyc ∉ exampleA.nodes := by
  have h := update_graph_full_replacement (fun _ => Except.ok exampleA)
    "resp" exampleB exampleA rfl
  exact ⟨h.1, h.2 N_nyc (by decide) (by decide) exampleA h.1⟩

/-- C6: node identity is the full tuple, so id collisions are retained.
For all graphs `a` containing `N(1,"Sam",PERSON)` and `b` containing
`N(1,"Samantha",PERSON)`, `a.update b` contains both nodes, which are
distinct elements sharing the same id. -/
theorem update_retains_id_collision (a b : KnowledgeGraph)
    (h1 : N_sam ∈ a.nodes) (h2 : N_samantha ∈ b.nodes) :
    N_sam ∈ (a.update b).nodes ∧ N_samantha ∈ (a.update b).nodes ∧
    N_sam ≠ N_samantha ∧ N_sam.id = N_samantha.id := by
  refine ⟨?_, ?_, by decide, by decide⟩
  · simp [KnowledgeGraph.update, List.mem_dedup, List.mem_append]
    exact Or.inl h1
  · simp [KnowledgeGraph.update, List.mem_dedup, List.mem_append]
    exact Or.inr h2

/-- Witness for C6: the concrete collision scenario of the spec. -/
theorem update_retains_id_collision_witness :
    N_sam ∈ ((⟨[N_sam], []⟩ : KnowledgeGraph).update ⟨[N_samantha], []⟩).nodes ∧
    N_samantha ∈ ((⟨[N_sam], []⟩ : KnowledgeGraph).update ⟨[N_samantha], []⟩).nodes ∧
    N_sam ≠ N_samantha ∧ N_sam.id = N_samantha.id :=
  update_retains_id_collision ⟨[N_sam], []⟩ ⟨[N_samantha], []⟩
    (by decide) (by decide)

/-- C9: merge is a pure function over heap objects.  A call `a.update(b)` on
in-range addresses allocates a fresh object for its result (the returned
address is the next allocation index, distinct from both operands), leaves
the contents of both operand objects exactly as they were, and the new cell
holds the merged value; the total Lean function raises no error.  Since the
prior snapshot's cell is untouched, a reader holding the previous address
(the rendering step) still observes the previous fully-formed graph after
the held current-graph address is rebound to the fresh one. -/
theorem update_pure_frame (h : Heap) (ra rb : Nat)
    (hra : ra < h.cells.length) (hrb : rb < h.cells.length) :
    (updateAlloc h ra rb).1.read ra = h.read ra ∧
    (updateAlloc h ra rb).1.read rb = h.read rb ∧
    (updateAlloc h ra rb).2 = h.cells.length ∧
    (updateAlloc h ra rb).2 ≠ ra ∧ (updateAlloc h ra rb).2 ≠ rb ∧
    (updateAlloc h ra rb).1.read (updateAlloc h ra rb).2
      = (h.read ra).update (h.read rb) := by
  refine ⟨?_, ?_, rfl, ?_, ?_, ?_⟩
  · exact List.getD_append _ _ _ _ hra
  · exact List.getD_append _ _ _ _ hrb
  · exact fun he => absurd (he ▸ hra) (lt_irrefl _)
  · exact fun he => absurd (he ▸ hrb) (lt_irrefl _)
  · show (h.cells ++ [_]).getD h.cells.length emptyGraph = _
    rw [List.getD_append_right _ _ _ _ (le_refl _)]
    simp

/-- Witness for C9: a two-cell heap holding the two example graphs. -/
theorem update_pure_frame_witness :
    (updateAlloc ⟨[exampleA, exampleB]⟩ 0 1).1.read 0
      = (⟨[exampleA, exampleB]⟩ : Heap).read 0 ∧
    (updateAlloc ⟨[exampleA, exampleB]⟩ 0 1).1.read 1
      = (⟨[exampleA, exampleB]⟩ : Heap).read 1 ∧
    (updateAlloc ⟨[exampleA, exampleB]⟩ 0 1).2 = 2 ∧
    (updateAlloc ⟨[exampleA, exampleB]⟩ 0 1).2 ≠ 0 ∧
    (updateAlloc ⟨[exampleA, exampleB]⟩ 0 1).2 ≠ 1 ∧
    (updateAlloc ⟨[exampleA, exampleB]⟩ 0 1).1.read
        (updateAlloc ⟨[exampleA, exampleB]⟩ 0 1).2
      = ((⟨[exampleA, exampleB]⟩ : Heap).read 0).update
          ((⟨[exampleA, exampleB]⟩ : Heap).read 1) :=
  update_pure_frame ⟨[exampleA, exampleB]⟩ 0 1 (by decide) (by decide)

/-- C10: the empty graph is an identity for merge up to ordering.  For every
graph `g`, the node and edge sets of `g.update emptyGraph` and of
`emptyGraph.update g` equal the sets of the deduplication of `g` itself;
and when `g` already has no exact-tuple duplicate nodes (resp. edges), the
result node (resp. edge) lists are permutations of `g`'s — equal to `g` as
sets and multisets. -/
theorem update_empty_identity (g : KnowledgeGraph) :
    ((g.update emptyGraph).nodes.toFinset = g.nodes.dedup.toFinset ∧
     (g.update emptyGraph).edges.toFinset = g.edges.dedup.toFinset ∧
     (emptyGraph.update g).nodes.toFinset = g.nodes.dedup.toFinset ∧
     (emptyGraph.update g).edges.toFinset = g.edges.dedup.toFinset) ∧
    (g.nodes.Nodup → (g.update emptyGraph).nodes.Perm g.nodes ∧
      (emptyGraph.update g).nodes.Perm g.nodes) ∧
    (g.edges.Nodup → (g.update emptyGraph).edges.Perm g.edges ∧
      (emptyGraph.update g).edges.Perm g.edges) := by
  refine ⟨⟨?_, ?_, ?_, ?_⟩, ?_, ?_⟩
  · simp [KnowledgeGraph.update, emptyGraph]
  · simp [KnowledgeGraph.update, emptyGraph]
  · simp [KnowledgeGraph.update, emptyGraph]
  · simp [KnowledgeGraph.update, emptyGraph]
  · intro hn
    constructor <;>
      simp [KnowledgeGraph.update, emptyGraph, List.dedup_eq_self.mpr hn]
  · intro hn
    constructor <;>
      simp [KnowledgeGraph.update, emptyGraph, List.dedup_eq_self.mpr hn]

/-- Witness for C10: the duplicate-free example graph `exampleB`. -/
theorem update_empty_identity_witness :
    (exampleB.update emptyGraph).nodes.Perm exampleB.nodes ∧
    (emptyGraph.update exampleB).edges.Perm exampleB.edges :=
  ⟨((update_empty_identity exampleB).2.1 (by decide)).1,
   ((update_empty_identity exampleB).2.2 (by decide)).2⟩

end Graphs
